import Mathlib

/-!
Verification of the orchestration core of the diary-agent HTTP gateway.

The embedding translates, from `app/services/orchestrator/orchestra_agent.py`,
`app/services/orchestrator/question/agent.py`, `app/api/endpoints/agent.py`:

* `_is_likely_question` — the fixed-lexicon substring classifier;
* `orchestrate_request` — the router (keyword pre-filter, direct QA
  delegation, evaluation trigger, error envelope), with the QA collaborator
  and the evaluation trigger abstracted as `Except`-valued functions and an
  explicit call trace recording the arguments of each collaborator call;
* `_parse_json_response` — the four-stage JSON recovery cascade, with the
  stdlib JSON decoder abstracted as a `String → Option PyVal` parameter and
  the two regex stages implemented as direct searches with the same
  semantics as the source patterns;
* `_extract_tool_results`, `filter_tool_result` and the inline reference
  loop of `generate_auto_response` — over a model `PyVal` of Python values
  in which dictionary subscripting, iteration and `in` raise exactly where
  Python raises (`Except`-valued helpers);
* `process_agent_request` — the `/agent` endpoint's parameter selection.
-/

set_option autoImplicit false

/-- Model of the Python values that flow through the extraction and parsing
code: `None`, booleans, integers, strings, lists and string-keyed dicts
(dicts as association lists, first binding wins, mirroring unique keys). -/
inductive PyVal where
  | none
  | bool (b : Bool)
  | int (n : Int)
  | str (s : String)
  | list (items : List PyVal)
  | dict (kvs : List (String × PyVal))

/-- Python truthiness (`bool(v)`) for the modelled values. -/
def pyTruthy : PyVal → Bool
  | PyVal.none => false
  | PyVal.bool b => b
  | PyVal.int n => n != 0
  | PyVal.str s => !(s == "")
  | PyVal.list l => !l.isEmpty
  | PyVal.dict d => !d.isEmpty

/-- `a or b` on Python values: `a` when truthy, else `b`. -/
def pyOr (a b : PyVal) : PyVal :=
  if pyTruthy a then a else b

/-- `d.get(k)` with default `None`, over a dict given as an association list. -/
def bodyGet (kvs : List (String × PyVal)) (k : String) : PyVal :=
  (List.lookup k kvs).getD PyVal.none

/-- Contiguous-substring test on character lists (Python's `a in b` for
strings): true iff `needle` occurs inside `hay`. -/
def substrIn (needle : List Char) : List Char → Bool
  | [] => needle.isEmpty
  | c :: rest => needle.isPrefixOf (c :: rest) || substrIn needle rest

/-- `v[k]` for a string key: dict lookup raising `KeyError` on a missing key,
`TypeError` on non-dict values (as in CPython). -/
def pySubscriptStr (v : PyVal) (k : String) : Except String PyVal :=
  match v with
  | PyVal.dict kvs =>
      match List.lookup k kvs with
      | some x => Except.ok x
      | Option.none => Except.error ("KeyError: " ++ k)
  | PyVal.str _ => Except.error "TypeError: string indices must be integers"
  | PyVal.list _ => Except.error "TypeError: list indices must be integers"
  | _ => Except.error "TypeError: object is not subscriptable"

/-- `v[i]` for a numeric index (used by `m["content"][0]`). -/
def pyIndexNat (v : PyVal) (i : Nat) : Except String PyVal :=
  match v with
  | PyVal.list xs =>
      match xs.get? i with
      | some x => Except.ok x
      | Option.none => Except.error "IndexError: list index out of range"
  | PyVal.str s =>
      match s.data.get? i with
      | some c => Except.ok (PyVal.str (String.mk [c]))
      | Option.none => Except.error "IndexError: string index out of range"
  | _ => Except.error "TypeError: object is not subscriptable"

/-- `for x in v`: lists yield their items, strings their characters (as
one-character strings), dicts their keys; other values raise `TypeError`. -/
def pyIter (v : PyVal) : Except String (List PyVal) :=
  match v with
  | PyVal.list xs => Except.ok xs
  | PyVal.str s => Except.ok (s.data.map (fun c => PyVal.str (String.mk [c])))
  | PyVal.dict kvs => Except.ok (kvs.map (fun kv => PyVal.str kv.1))
  | _ => Except.error "TypeError: object is not iterable"

/-- `needle in v` for a string needle: key membership for dicts, substring
test for strings, element equality for lists, `TypeError` otherwise. -/
def pyContainsStr (needle : String) (v : PyVal) : Except String Bool :=
  match v with
  | PyVal.dict kvs => Except.ok (kvs.any (fun kv => kv.1 == needle))
  | PyVal.str s => Except.ok (substrIn needle.data s.data)
  | PyVal.list xs =>
      Except.ok (xs.any (fun x =>
        match x with
        | PyVal.str t => t == needle
        | _ => false))
  | _ => Except.error "TypeError: argument is not a container"

/-- The question-marker lexicon of `_is_likely_question`, in source order. -/
def question_patterns : List String :=
  ["?", "했어?", "뭐야", "뭐에요", "뭔가요",
   "언제", "어디", "누가", "누구", "왜", "어떻게", "어떤",
   "몇", "얼마", "알려줘", "알려주세요", "가르쳐",
   "있어?", "있나요", "있을까", "없어?", "없나요",
   "할까", "할까요", "해줘", "해주세요", "해줄래",
   "볼까", "볼래", "먹을까", "갈까",
   "맞아?", "맞나요", "아니야?", "아닌가요",
   "인가요", "인가", "일까", "일까요",
   "줄래", "줄까", "줄 수", "수 있어", "수 있나요",
   "뭘", "뭐를", "무엇", "무슨", "뭐했", "뭐 했"]

/-- `_is_likely_question`: true iff some marker is a substring of the text
(`any(pattern in text for pattern in question_patterns)`). -/
def _is_likely_question (text : String) : Bool :=
  question_patterns.any (fun p => substrIn p.data text.data)

/-- The three-field result dict returned by `orchestrate_request`
(`type`, `content`, `message`, all strings in every return site). -/
structure OrchestrationResult where
  type : String
  content : String
  message : String

/-- The QA collaborator's output as consumed by the router:
`response.get("response", "")` and `response.get("reference")`. -/
structure QAResult where
  response : String
  reference : Option String

/-- Trace of the collaborator calls made during one `orchestrate_request`:
the argument triples of each `generate_auto_response` call and of each
`run_evaluation` call. -/
structure RouterTrace where
  qaCalls : List (String × Option String × Option String)
  evalCalls : List (String × String × Option String)

/-- `orchestrate_request` from `orchestra_agent.py`.  The QA collaborator
`qa` models `generate_auto_response` (an `Except.error` models a raised
exception, whose payload is `str(e)`); `evalTrigger` models
`run_evaluation`, whose outcome the source discards after logging.  The
second component records which collaborator calls were made, with their
exact arguments. -/
def orchestrate_request
    (qa : String → Option String → Option String → Except String QAResult)
    (evalTrigger : String → String → Option String → Except String Unit)
    (user_input : String) (user_id : Option String) (current_date : Option String) :
    OrchestrationResult × RouterTrace :=
  if _is_likely_question user_input = false then
    ({ type := "data", content := "", message := "메시지가 저장되었습니다." },
     { qaCalls := [], evalCalls := [] })
  else
    match qa user_input user_id current_date with
    | Except.ok response =>
        let answer_content := response.response
        let reference_text := response.reference
        let evalCalls :=
          if answer_content = "" then []
          else
            let _ := evalTrigger user_input answer_content reference_text
            [(user_input, answer_content, reference_text)]
        ({ type := "answer", content := answer_content,
           message := "질문에 대한 답변입니다." },
         { qaCalls := [(user_input, user_id, current_date)], evalCalls := evalCalls })
    | Except.error e =>
        ({ type := "answer", content := "",
           message := "답변 생성 중 오류가 발생했습니다: " ++ e },
         { qaCalls := [(user_input, user_id, current_date)], evalCalls := [] })

/-- A QA collaborator that answers successfully (used in witnesses). -/
def qaOk : String → Option String → Option String → Except String QAResult :=
  fun _ _ _ => Except.ok { response := "맑았어요", reference := Option.none }

/-- A QA collaborator that raises (used in witnesses and counterexamples). -/
def qaFail : String → Option String → Option String → Except String QAResult :=
  fun _ _ _ => Except.error "boom"

/-- An evaluation trigger that succeeds (used in witnesses). -/
def evNoop : String → String → Option String → Except String Unit :=
  fun _ _ _ => Except.ok ()

/-- An evaluation trigger that raises (used in witnesses). -/
def evBoom : String → String → Option String → Except String Unit :=
  fun _ _ _ => Except.error "eval down"

/-- Python regex `\s` over ASCII (the whitespace class used by the two
fallback patterns and by `str.strip`). -/
def pyWs (c : Char) : Bool :=
  c == ' ' || c == '\t' || c == '\n' || c == '\r' || c == '\x0b' || c == '\x0c'

/-- `str(response_text).strip()`. -/
def pyStrip (s : String) : String :=
  String.mk (((s.data.dropWhile pyWs).reverse.dropWhile pyWs).reverse)

/-- The three-backtick fence delimiter of the stage-2 pattern. -/
def fenceTicks : List Char := "```".data

/-- The optional `json` tag of the stage-2 pattern. -/
def jsonTag : List Char := "json".data

/-- The literal `"type"` (quotes included) required by the stage-3 pattern. -/
def typeKeyLit : List Char := "\"type\"".data

/-- Lazy body scan of the stage-2 pattern: after the opening `{`, consume the
shortest run of characters (dot-all) up to a `}` whose following maximal
whitespace run is immediately followed by a closing fence; returns the
capture group `{...}`. -/
def fencedBody (acc : List Char) : List Char → Option (List Char)
  | [] => Option.none
  | c :: rest =>
      if c == '}' && fenceTicks.isPrefixOf (rest.dropWhile pyWs) then
        some (('{' :: acc.reverse) ++ ['}'])
      else fencedBody (c :: acc) rest

/-- Attempt of the stage-2 pattern with the match anchored at the head of
`cs`: an opening fence, an optional literal `json` tag, a maximal
whitespace run, then the lazily-matched braced group. -/
def matchFencedAt (cs : List Char) : Option (List Char) :=
  if fenceTicks.isPrefixOf cs then
    let afterFence := cs.drop 3
    let afterTag := if jsonTag.isPrefixOf afterFence then afterFence.drop 4 else afterFence
    match afterTag.dropWhile pyWs with
    | '{' :: body => fencedBody [] body
    | _ => Option.none
  else Option.none

/-- `re.search` of the stage-2 fenced-block pattern: leftmost starting
position wins; returns the capture group. -/
def fencedSearch : List Char → Option (List Char)
  | [] => Option.none
  | c :: rest =>
      match matchFencedAt (c :: rest) with
      | some g => some g
      | Option.none => fencedSearch rest

/-- Attempt of the stage-3 pattern anchored at the head of `cs`: an opening
brace, a brace-free interior containing the literal `"type"`, then the first
following brace character, which must be a closing brace. -/
def matchBraceAt : List Char → Option (List Char)
  | '{' :: rest =>
      let run := rest.takeWhile (fun c => !(c == '{' || c == '}'))
      match rest.dropWhile (fun c => !(c == '{' || c == '}')) with
      | '}' :: _ =>
          if substrIn typeKeyLit run then some (('{' :: run) ++ ['}'])
          else Option.none
      | _ => Option.none
  | _ => Option.none

/-- `re.search` of the stage-3 brace pattern: leftmost starting position
wins; returns the whole match. -/
def braceSearch : List Char → Option (List Char)
  | [] => Option.none
  | c :: rest =>
      match matchBraceAt (c :: rest) with
      | some g => some g
      | Option.none => braceSearch rest

/-- The safe default returned when every cascade stage fails. -/
def defaultParse : PyVal :=
  PyVal.dict
    [("type", PyVal.str "data"), ("content", PyVal.str ""),
     ("message", PyVal.str "메시지가 저장되었습니다.")]

/-- `_parse_json_response` from `orchestra_agent.py`, with the stdlib JSON
decoder abstracted as `jsonLoads` (returning `Option.none` where
`json.loads` raises `JSONDecodeError`).  Stage 1 parses the stripped text;
stage 2 parses the capture group of the fenced-block pattern when it
matches; stage 3 parses the match of the brace pattern; otherwise the safe
default is returned.  A stage whose parse fails falls through to the next. -/
def _parse_json_response (jsonLoads : String → Option PyVal) (response_text : String) : PyVal :=
  let text := pyStrip response_text
  match jsonLoads text with
  | some v => v
  | Option.none =>
      match (fencedSearch text.data).bind (fun g => jsonLoads (String.mk g)) with
      | some v => v
      | Option.none =>
          match (braceSearch text.data).bind (fun g => jsonLoads (String.mk g)) with
          | some v => v
          | Option.none => defaultParse

/-- JSON whitespace accepted between tokens by the decoder model. -/
def jsonWs (c : Char) : Bool :=
  c == ' ' || c == '\t' || c == '\n' || c == '\r'

/-- Drop JSON whitespace. -/
def skipJWs (cs : List Char) : List Char := cs.dropWhile jsonWs

/-- String-body scanner of the decoder model: reads up to the closing
quote, handling the single-character escapes; `\u` escapes are out of the
model and make the parse fail. -/
def parseJStr (acc : List Char) : List Char → Option (String × List Char)
  | [] => Option.none
  | '"' :: rest => some (String.mk acc.reverse, rest)
  | '\\' :: c :: rest =>
      match c with
      | '"' => parseJStr ('"' :: acc) rest
      | '\\' => parseJStr ('\\' :: acc) rest
      | '/' => parseJStr ('/' :: acc) rest
      | 'n' => parseJStr ('\n' :: acc) rest
      | 't' => parseJStr ('\t' :: acc) rest
      | 'r' => parseJStr ('\r' :: acc) rest
      | 'b' => parseJStr ('\x08' :: acc) rest
      | 'f' => parseJStr ('\x0c' :: acc) rest
      | _ => Option.none
  | c :: rest => parseJStr (c :: acc) rest

/-- Digit-run scanner of the decoder model: a nonempty digit run with no
leading zero, rejected when continued by a fraction or exponent (floats are
out of the model). -/
def parseJNat (cs : List Char) : Option (Nat × List Char) :=
  let digits := cs.takeWhile Char.isDigit
  let rest := cs.dropWhile Char.isDigit
  if digits.isEmpty then Option.none
  else if digits.length > 1 && digits.headD '0' == '0' then Option.none
  else
    match rest with
    | '.' :: _ => Option.none
    | 'e' :: _ => Option.none
    | 'E' :: _ => Option.none
    | _ => some (digits.foldl (fun n c => 10 * n + (c.toNat - '0'.toNat)) 0, rest)

mutual

/-- Value parser of the decoder model (fuel-indexed recursive descent). -/
def parseJValue : Nat → List Char → Option (PyVal × List Char)
  | 0, _ => Option.none
  | Nat.succ fuel, cs =>
      match skipJWs cs with
      | 'n' :: 'u' :: 'l' :: 'l' :: rest => some (PyVal.none, rest)
      | 't' :: 'r' :: 'u' :: 'e' :: rest => some (PyVal.bool true, rest)
      | 'f' :: 'a' :: 'l' :: 's' :: 'e' :: rest => some (PyVal.bool false, rest)
      | '"' :: rest => (parseJStr [] rest).map (fun p => (PyVal.str p.1, p.2))
      | '[' :: rest =>
          (match skipJWs rest with
           | ']' :: rest2 => some (PyVal.list [], rest2)
           | rest2 => (parseJArrItems fuel rest2).map (fun p => (PyVal.list p.1, p.2)))
      | '{' :: rest =>
          (match skipJWs rest with
           | '}' :: rest2 => some (PyVal.dict [], rest2)
           | rest2 => (parseJObjItems fuel rest2).map (fun p => (PyVal.dict p.1, p.2)))
      | '-' :: rest => (parseJNat rest).map (fun p => (PyVal.int (-(p.1 : Int)), p.2))
      | c :: rest =>
          if c.isDigit then (parseJNat (c :: rest)).map (fun p => (PyVal.int (p.1 : Int), p.2))
          else Option.none
      | [] => Option.none

/-- Array-item parser of the decoder model. -/
def parseJArrItems : Nat → List Char → Option (List PyVal × List Char)
  | 0, _ => Option.none
  | Nat.succ fuel, cs =>
      match parseJValue fuel cs with
      | some (v, rest) =>
          (match skipJWs rest with
           | ',' :: rest2 => (parseJArrItems fuel rest2).map (fun p => (v :: p.1, p.2))
           | ']' :: rest2 => some ([v], rest2)
           | _ => Option.none)
      | Option.none => Option.none

/-- Object-member parser of the decoder model. -/
def parseJObjItems : Nat → List Char → Option (List (String × PyVal) × List Char)
  | 0, _ => Option.none
  | Nat.succ fuel, cs =>
      match skipJWs cs with
      | '"' :: rest =>
          (match parseJStr [] rest with
           | some (k, rest2) =>
               (match skipJWs rest2 with
                | ':' :: rest3 =>
                    (match parseJValue fuel rest3 with
                     | some (v, rest4) =>
                         (match skipJWs rest4 with
                          | ',' :: rest5 => (parseJObjItems fuel rest5).map (fun p => ((k, v) :: p.1, p.2))
                          | '}' :: rest5 => some ([(k, v)], rest5)
                          | _ => Option.none)
                     | Option.none => Option.none)
                | _ => Option.none)
           | Option.none => Option.none)
      | _ => Option.none

end

/-- Model of the external stdlib JSON decoder (`json.loads`): parses one
value, requires only trailing whitespace after it.  Floats, `\u` escapes
and `NaN`/`Infinity` are outside the model; every universally quantified
cascade theorem is stated for an arbitrary decoder, this concrete model is
used for closed evaluations only. -/
def jsonParse (s : String) : Option PyVal :=
  match parseJValue (2 * s.length + 16) s.data with
  | some (v, rest) => if (skipJWs rest).isEmpty then some v else Option.none
  | Option.none => Option.none

/-- First `text` value among a list of content blocks: the inner loop of the
reference extraction in `generate_auto_response` (`for item in tool_content:
if isinstance(item, dict) and "text" in item: ... break`). -/
def firstTextVal : List PyVal → Option PyVal
  | [] => Option.none
  | PyVal.dict kvs :: rest =>
      match List.lookup "text" kvs with
      | some v => some v
      | Option.none => firstTextVal rest
  | _ :: rest => firstTextVal rest

/-- The candidate reference one tool-result contributes in
`generate_auto_response`: for a dict whose `content` is a list, the first
`text` block's value; for a dict whose `content` is a string, that string;
otherwise no candidate (the running value is left unchanged). -/
def candidateOf : PyVal → Option PyVal
  | PyVal.dict kvs =>
      (match List.lookup "content" kvs with
       | some (PyVal.list items) => firstTextVal items
       | some (PyVal.str s) => some (PyVal.str s)
       | _ => Option.none)
  | _ => Option.none

/-- The reference loop of `generate_auto_response` (lines 203-215): the
running `reference_text` starts as `None`, each tool-result overwrites it
with its candidate when one exists, and the loop breaks as soon as the
running value is truthy. -/
def refLoop (acc : PyVal) : List PyVal → PyVal
  | [] => acc
  | tr :: rest =>
      let next :=
        match candidateOf tr with
        | some c => c
        | Option.none => acc
      if pyTruthy next then next else refLoop next rest

/-- Reference extraction over a tool-result list as performed inline in
`generate_auto_response`; `PyVal.none` models the initial Python `None`. -/
def qa_reference_extract (tool_results : List PyVal) : PyVal :=
  refLoop PyVal.none tool_results

/-- One content block of `filter_tool_result`'s inner loop: when the block
contains the tool-result tag, `m["content"][0]["toolResult"]` is appended
(the source indexes block 0, not the matching block). -/
def filterBlockStep (cv : PyVal) (acc : List PyVal) (content : PyVal) :
    Except String (List PyVal) := do
  let b ← pyContainsStr "toolResult" content
  if b then
    let first ← pyIndexNat cv 0
    let tr ← pySubscriptStr first "toolResult"
    pure (acc ++ [tr])
  else
    pure acc

/-- One message of `filter_tool_result`: `m["content"]` is subscripted
directly (raising `KeyError` when the key is absent) and then iterated. -/
def filterMsgStep (acc : List PyVal) (m : PyVal) : Except String (List PyVal) := do
  let cv ← pySubscriptStr m "content"
  let blocks ← pyIter cv
  blocks.foldlM (filterBlockStep cv) acc

/-- `filter_tool_result` from `question/agent.py`, applied to the agent's
message list; an `Except.error` models a raised exception. -/
def filter_tool_result (messages : List PyVal) : Except String (List PyVal) :=
  messages.foldlM filterMsgStep []

/-- The nested-`json` reference update of `_extract_tool_results`: every
`content` item that is a dict with a `json` key whose value is a dict with a
`reference` key overwrites the running reference (last one wins). -/
def updateReference (prev : PyVal) (tr : PyVal) : PyVal :=
  match tr with
  | PyVal.dict kvs =>
      (match List.lookup "content" kvs with
       | some (PyVal.list items) =>
           items.foldl
             (fun acc item =>
               match item with
               | PyVal.dict ikvs =>
                   (match List.lookup "json" ikvs with
                    | some (PyVal.dict jkvs) =>
                        (match List.lookup "reference" jkvs with
                         | some r => r
                         | Option.none => acc)
                    | _ => acc)
               | _ => acc)
             prev
       | _ => prev)
  | _ => prev

/-- One content block of `_extract_tool_results`: a block containing the
tool-result tag contributes `content["toolResult"]` to the collected list
and updates the running reference. -/
def extractBlockStep (state : List PyVal × PyVal) (content : PyVal) :
    Except String (List PyVal × PyVal) := do
  let b ← pyContainsStr "toolResult" content
  if b then
    let tr ← pySubscriptStr content "toolResult"
    pure (state.1 ++ [tr], updateReference state.2 tr)
  else
    pure state

/-- One message of `_extract_tool_results`: `m.get("content", [])` (an
`AttributeError` on non-dict messages) followed by iteration. -/
def extractMsgStep (state : List PyVal × PyVal) (m : PyVal) :
    Except String (List PyVal × PyVal) := do
  let cv ←
    (match m with
     | PyVal.dict kvs => Except.ok ((List.lookup "content" kvs).getD (PyVal.list []))
     | _ => Except.error "AttributeError: get")
  let blocks ← pyIter cv
  blocks.foldlM extractBlockStep state

/-- `_extract_tool_results` from `orchestra_agent.py`, applied to the
agent's message list: returns the collected tool results and the reference
extracted from nested `json` blocks (`PyVal.none` models Python `None`). -/
def _extract_tool_results (messages : List PyVal) : Except String (List PyVal × PyVal) :=
  messages.foldlM extractMsgStep ([], PyVal.none)

/-- The text-input aliases of the `/agent` endpoint, in selection order. -/
def textAliases : List String := ["content", "inputText", "input", "user_input"]

/-- The 400 envelope of the `/agent` endpoint for a missing text input. -/
def inputRequiredEnvelope : PyVal :=
  PyVal.dict
    [("type", PyVal.str "error"), ("content", PyVal.str ""),
     ("message", PyVal.str "입력 데이터가 필요합니다.")]

/-- The parameter handling of `process_agent_request` in
`api/endpoints/agent.py`: `user_input` is the `or`-chain over the four
aliases, a falsy selection yields HTTP 400 with the fixed envelope, and an
accepted request calls the orchestrator with the selected text, `user_id`
and `record_date or current_date`.  The result pairs the HTTP status and
payload with the orchestrator call's arguments (`Option.none` when the
orchestrator was not called). -/
def process_agent_request (orch : PyVal → PyVal → PyVal → PyVal)
    (body : List (String × PyVal)) :
    (Nat × PyVal) × Option (PyVal × PyVal × PyVal) :=
  let user_input :=
    pyOr (bodyGet body "content")
      (pyOr (bodyGet body "inputText")
        (pyOr (bodyGet body "input") (bodyGet body "user_input")))
  if pyTruthy user_input = false then
    ((400, inputRequiredEnvelope), Option.none)
  else
    let user_id := bodyGet body "user_id"
    let current_date := pyOr (bodyGet body "record_date") (bodyGet body "current_date")
    ((200, orch user_input user_id current_date), some (user_input, user_id, current_date))

/-- A concrete orchestrator echoing its text argument (used in witnesses). -/
def orchEcho : PyVal → PyVal → PyVal → PyVal := fun v _ _ => v

/-! ## Claim theorems -/

/-- C1: for every input text in which no question marker occurs, the router
returns the data envelope with empty content and the saved message
immediately, with an empty collaborator-call trace (no QA call, no
evaluation call). -/
theorem orchestrate_data_short_circuit
    (qa : String → Option String → Option String → Except String QAResult)
    (ev : String → String → Option String → Except String Unit)
    (t : String) (uid d : Option String)
    (h : _is_likely_question t = false) :
    orchestrate_request qa ev t uid d =
      ({ type := "data", content := "", message := "메시지가 저장되었습니다." },
       { qaCalls := [], evalCalls := [] }) := by
  simp [orchestrate_request, h]

/-- C1 witness: the marker-free diary sentence short-circuits to the data
envelope with no collaborator calls. -/
theorem orchestrate_data_short_circuit_witness :
    _is_likely_question "오늘 점심에 파스타를 먹었다" = false ∧
    orchestrate_request qaOk evBoom "오늘 점심에 파스타를 먹었다" Option.none Option.none =
      ({ type := "data", content := "", message := "메시지가 저장되었습니다." },
       { qaCalls := [], evalCalls := [] }) :=
  ⟨rfl, orchestrate_data_short_circuit qaOk evBoom "오늘 점심에 파스타를 먹었다"
    Option.none Option.none rfl⟩

/-- C2: for every input containing a question marker whose QA call
succeeds, the router calls the QA collaborator exactly once with exactly
`(question, user_id, current_date)` and returns the answer envelope built
from the collaborator's `response` field. -/
theorem orchestrate_question_path
    (qa : String → Option String → Option String → Except String QAResult)
    (ev : String → String → Option String → Except String Unit)
    (t : String) (uid d : Option String) (r : QAResult)
    (hq : _is_likely_question t = true) (hok : qa t uid d = Except.ok r) :
    (orchestrate_request qa ev t uid d).1 =
      { type := "answer", content := r.response, message := "질문에 대한 답변입니다." } ∧
    (orchestrate_request qa ev t uid d).2.qaCalls = [(t, uid, d)] := by
  constructor <;> simp [orchestrate_request, hq, hok]

/-- C2 witness: the end-to-end scenario of the spec with
`user_id="u1"`, `current_date="2024-01-15"`. -/
theorem orchestrate_question_path_witness :
    _is_likely_question "오늘 날씨 어땠어?" = true ∧
    (orchestrate_request qaOk evNoop "오늘 날씨 어땠어?" (some "u1") (some "2024-01-15")).1 =
      { type := "answer", content := "맑았어요", message := "질문에 대한 답변입니다." } ∧
    (orchestrate_request qaOk evNoop "오늘 날씨 어땠어?" (some "u1") (some "2024-01-15")).2.qaCalls =
      [("오늘 날씨 어땠어?", some "u1", some "2024-01-15")] :=
  ⟨rfl,
   (orchestrate_question_path qaOk evNoop "오늘 날씨 어땠어?" (some "u1") (some "2024-01-15")
     { response := "맑았어요", reference := Option.none } rfl rfl).1,
   (orchestrate_question_path qaOk evNoop "오늘 날씨 어땠어?" (some "u1") (some "2024-01-15")
     { response := "맑았어요", reference := Option.none } rfl rfl).2⟩

/-- C3 counterexample: on the failing QA path the router returns
`type="answer"` with `content=""`, so `type = "data" ↔ content = ""` is
false at this input — the claimed invariant does not hold of the code. -/
theorem orchestration_invariant_ce :
    ¬ (((orchestrate_request qaFail evNoop "뭐야" Option.none Option.none).1.type = "data") ↔
       ((orchestrate_request qaFail evNoop "뭐야" Option.none Option.none).1.content = "")) := by
  decide

/-- C3 amended: every result has type `data` or `answer`; a `data` result
has empty content; a result with non-empty content has type `answer`.  (An
`answer` result may carry empty content: QA failure, or an empty
collaborator `response`.) -/
theorem orchestration_result_invariant
    (qa : String → Option String → Option String → Except String QAResult)
    (ev : String → String → Option String → Except String Unit)
    (t : String) (uid d : Option String) :
    ((orchestrate_request qa ev t uid d).1.type = "data" ∨
     (orchestrate_request qa ev t uid d).1.type = "answer") ∧
    ((orchestrate_request qa ev t uid d).1.type = "data" →
     (orchestrate_request qa ev t uid d).1.content = "") ∧
    ((orchestrate_request qa ev t uid d).1.content ≠ "" →
     (orchestrate_request qa ev t uid d).1.type = "answer") := by
  by_cases h : _is_likely_question t = false
  · simp [orchestrate_request, h]
  · cases h3 : qa t uid d with
    | ok r => simp [orchestrate_request, h, h3]
    | error e => simp [orchestrate_request, h, h3]

/-- C3 witness: the amended invariant applied at a concrete input. -/
theorem orchestration_result_invariant_witness :
    ((orchestrate_request qaOk evNoop "" Option.none Option.none).1.type = "data" ∨
     (orchestrate_request qaOk evNoop "" Option.none Option.none).1.type = "answer") :=
  (orchestration_result_invariant qaOk evNoop "" Option.none Option.none).1

/-- C4: a QA-collaborator exception on the question path is converted into
the `answer`-typed envelope with empty content and the error message
carrying the cause; the router returns a plain value for every collaborator
behaviour (it is a total function, so no exception propagates), and the
data path never consults a collaborator. -/
theorem orchestrate_error_envelope
    (qa : String → Option String → Option String → Except String QAResult)
    (ev : String → String → Option String → Except String Unit)
    (t : String) (uid d : Option String) (e : String)
    (hq : _is_likely_question t = true) (he : qa t uid d = Except.error e) :
    orchestrate_request qa ev t uid d =
      ({ type := "answer", content := "", message := "답변 생성 중 오류가 발생했습니다: " ++ e },
       { qaCalls := [(t, uid, d)], evalCalls := [] }) := by
  simp [orchestrate_request, hq, he]

/-- C4 witness: a raising QA collaborator yields the error envelope. -/
theorem orchestrate_error_envelope_witness :
    _is_likely_question "뭐야" = true ∧
    orchestrate_request qaFail evNoop "뭐야" Option.none Option.none =
      ({ type := "answer", content := "", message := "답변 생성 중 오류가 발생했습니다: boom" },
       { qaCalls := [("뭐야", Option.none, Option.none)], evalCalls := [] }) :=
  ⟨rfl, orchestrate_error_envelope qaFail evNoop "뭐야" Option.none Option.none "boom" rfl rfl⟩

/-- C5: on a question path whose QA call succeeds with non-empty content,
the returned result is the same for any two evaluation-trigger behaviours
(success or raise), the evaluation trigger is invoked once with
`(input, content, reference)`, and — in general — evaluation is invoked
only when the returned content is non-empty. -/
theorem evaluation_isolation
    (qa : String → Option String → Option String → Except String QAResult)
    (ev1 ev2 : String → String → Option String → Except String Unit)
    (t : String) (uid d : Option String) (r : QAResult)
    (hq : _is_likely_question t = true) (hok : qa t uid d = Except.ok r)
    (hne : r.response ≠ "") :
    (orchestrate_request qa ev1 t uid d).1 = (orchestrate_request qa ev2 t uid d).1 ∧
    (orchestrate_request qa ev1 t uid d).2.evalCalls = [(t, r.response, r.reference)] ∧
    (∀ (qa2 : String → Option String → Option String → Except String QAResult)
       (ev : String → String → Option String → Except String Unit)
       (t2 : String) (uid2 d2 : Option String),
       (orchestrate_request qa2 ev t2 uid2 d2).1.content = "" →
       (orchestrate_request qa2 ev t2 uid2 d2).2.evalCalls = []) := by
  refine ⟨?_, ?_, ?_⟩
  · simp [orchestrate_request, hq, hok]
  · simp [orchestrate_request, hq, hok, hne]
  · intro qa2 ev t2 uid2 d2 hc
    by_cases h2 : _is_likely_question t2 = false
    · simp [orchestrate_request, h2]
    · cases h3 : qa2 t2 uid2 d2 with
      | ok r2 =>
          simp [orchestrate_request, h2, h3] at hc ⊢
          simp [hc]
      | error e2 => simp [orchestrate_request, h2, h3]

/-- C5 witness: a raising evaluation trigger leaves the result identical to
that with a succeeding one, and the evaluation call is recorded. -/
theorem evaluation_isolation_witness :
    (orchestrate_request qaOk evBoom "뭐야" Option.none Option.none).1 =
      (orchestrate_request qaOk evNoop "뭐야" Option.none Option.none).1 ∧
    (orchestrate_request qaOk evBoom "뭐야" Option.none Option.none).2.evalCalls =
      [("뭐야", "맑았어요", Option.none)] :=
  ⟨(evaluation_isolation qaOk evBoom evNoop "뭐야" Option.none Option.none
      { response := "맑았어요", reference := Option.none } rfl rfl (by decide)).1,
   (evaluation_isolation qaOk evBoom evNoop "뭐야" Option.none Option.none
      { response := "맑았어요", reference := Option.none } rfl rfl (by decide)).2.1⟩

/-- C6: for every input string and every behaviour of the JSON decoder,
`_parse_json_response` is total (never raises, by construction) and follows
the ordered cascade — stage 1 returns a successful direct parse of the
stripped text; when stage 1 fails, stage 2 returns a successful parse of
the fenced-block capture; when stages 1-2 fail, stage 3 returns a
successful parse of the brace-pattern match; when all three fail it returns
the safe default `{type:"data", content:"", message:saved}`. -/
theorem parse_json_response_cascade (jsonLoads : String → Option PyVal) (t : String) :
    (∀ v, jsonLoads (pyStrip t) = some v → _parse_json_response jsonLoads t = v)
  ∧ (jsonLoads (pyStrip t) = Option.none →
      ∀ g v, fencedSearch (pyStrip t).data = some g → jsonLoads (String.mk g) = some v →
        _parse_json_response jsonLoads t = v)
  ∧ (jsonLoads (pyStrip t) = Option.none →
      (fencedSearch (pyStrip t).data).bind (fun g => jsonLoads (String.mk g)) = Option.none →
      ∀ g v, braceSearch (pyStrip t).data = some g → jsonLoads (String.mk g) = some v →
        _parse_json_response jsonLoads t = v)
  ∧ (jsonLoads (pyStrip t) = Option.none →
      (fencedSearch (pyStrip t).data).bind (fun g => jsonLoads (String.mk g)) = Option.none →
      (braceSearch (pyStrip t).data).bind (fun g => jsonLoads (String.mk g)) = Option.none →
      _parse_json_response jsonLoads t = defaultParse) := by
  refine ⟨?_, ?_, ?_, ?_⟩
  · intro v h
    simp [_parse_json_response, h]
  · intro h1 g v hg hv
    simp [_parse_json_response, h1, hg, hv]
  · intro h1 h2 g v hg hv
    simp [_parse_json_response, h1, h2, hg, hv]
  · intro h1 h2 h3
    simp [_parse_json_response, h1, h2, h3]

/-- C6 witness: the spec's unparseable garbage input falls through every
stage and yields the safe default. -/
theorem parse_json_response_cascade_witness :
    jsonParse (pyStrip "not json at all") = Option.none ∧
    _parse_json_response jsonParse "not json at all" = defaultParse :=
  ⟨rfl, (parse_json_response_cascade jsonParse "not json at all").2.2.2 rfl rfl rfl⟩

/-- C10: when the raw text parses as JSON at stage 1, the decoded value is
returned as-is, with no validation that it is a three-field object — an
array, number, string or arbitrarily-shaped object comes back verbatim. -/
theorem parse_json_first_stage_verbatim (t : String) (v : PyVal)
    (h : jsonParse (pyStrip t) = some v) :
    _parse_json_response jsonParse t = v := by
  simp [_parse_json_response, h]

/-- C10 witness: the JSON array text comes back as the array itself, not as
a three-field result and not as the safe default. -/
theorem parse_json_first_stage_verbatim_witness :
    jsonParse (pyStrip "[1, 2]") = some (PyVal.list [PyVal.int 1, PyVal.int 2]) ∧
    _parse_json_response jsonParse "[1, 2]" = PyVal.list [PyVal.int 1, PyVal.int 2] :=
  ⟨rfl, parse_json_first_stage_verbatim "[1, 2]" (PyVal.list [PyVal.int 1, PyVal.int 2]) rfl⟩

/-- Helper: the reference loop of `generate_auto_response` computes the
first truthy candidate among the tool-results' candidates, and otherwise
the last candidate (falling back to the initial value when no tool-result
contributes a candidate). -/
theorem refLoop_eq_spec (trs : List PyVal) (acc : PyVal) (h : pyTruthy acc = false) :
    refLoop acc trs =
      match (trs.filterMap candidateOf).find? pyTruthy with
      | some v => v
      | Option.none => (trs.filterMap candidateOf).getLastD acc := by
  induction trs generalizing acc with
  | nil => simp [refLoop]
  | cons tr rest ih =>
    cases hc : candidateOf tr with
    | none =>
        have hfm : List.filterMap candidateOf (tr :: rest) = List.filterMap candidateOf rest := by
          simp [List.filterMap_cons, hc]
        have hstep : refLoop acc (tr :: rest) = refLoop acc rest := by
          simp [refLoop, hc, h]
        rw [hstep, ih acc h, hfm]
    | some c =>
        have hfm : List.filterMap candidateOf (tr :: rest) = c :: List.filterMap candidateOf rest := by
          simp [List.filterMap_cons, hc]
        cases htr : pyTruthy c with
        | true =>
            have hstep : refLoop acc (tr :: rest) = c := by
              simp [refLoop, hc, htr]
            rw [hstep, hfm, List.find?_cons_of_pos _ htr]
        | false =>
            have hstep : refLoop acc (tr :: rest) = refLoop c rest := by
              simp [refLoop, hc, htr]
            rw [hstep, ih c htr, hfm,
              List.find?_cons_of_neg _ (by simp [htr]), List.getLastD_cons]

/-- C7 counterexample: on a tool-result carrying two text blocks `"a"` and
`"b"`, the extraction returns `"a"` — the first text block — and not the
claimed blank-line concatenation `"a\n\nb"` of all matches. -/
theorem qa_reference_extract_ce :
    qa_reference_extract
        [PyVal.dict [("content", PyVal.list
            [PyVal.dict [("text", PyVal.str "a")], PyVal.dict [("text", PyVal.str "b")]])]] =
      PyVal.str "a" ∧
    PyVal.str "a" ≠ PyVal.str "a\n\nb" := by
  refine ⟨rfl, ?_⟩
  intro h
  injection h with h2
  exact absurd h2 (by decide)

/-- C7 amended: reference extraction in `generate_auto_response` scans the
tool-results in order; each contributes at most one candidate — the first
`text` block's value when its `content` is a list, or the `content` string
itself — and the result is the first truthy candidate (else the last
candidate, else `None`).  Nested `json` fields are not consulted and
matches are never concatenated. -/
theorem qa_reference_extract_first_match (trs : List PyVal) :
    qa_reference_extract trs =
      match (trs.filterMap candidateOf).find? pyTruthy with
      | some v => v
      | Option.none => (trs.filterMap candidateOf).getLastD PyVal.none :=
  refLoop_eq_spec trs PyVal.none rfl

/-- C8 counterexample: `filter_tool_result` subscripts `m["content"]`
directly, so a message list whose first entry lacks the `content` key makes
the extractor raise `KeyError` instead of skipping the malformed entry —
even though a later entry is well-formed. -/
theorem filter_tool_result_raises :
    filter_tool_result
        [PyVal.dict [("role", PyVal.str "user")],
         PyVal.dict [("content", PyVal.list
            [PyVal.dict [("toolResult", PyVal.dict [("content", PyVal.list
               [PyVal.dict [("text", PyVal.str "hello")]])])]])]] =
      Except.error "KeyError: content" := rfl

/-- C8 amended: the robustness holds of `_extract_tool_results` (which uses
`m.get("content", [])`) and of the tool-result reference loop, not of
`filter_tool_result`: a dict message without a `content` key is skipped by
`_extract_tool_results` without an exception; the reference loop returns
`"hello"` from the well-formed entry next to a malformed one; and
`_extract_tool_results` processes the analogous message list without
raising. -/
theorem extract_tool_results_robust :
    (∀ (kvs : List (String × PyVal)) (rest : List PyVal),
        List.lookup "content" kvs = Option.none →
        _extract_tool_results (PyVal.dict kvs :: rest) = _extract_tool_results rest) ∧
    qa_reference_extract
        [PyVal.dict [("status", PyVal.str "ok")],
         PyVal.dict [("content", PyVal.list [PyVal.dict [("text", PyVal.str "hello")]])]] =
      PyVal.str "hello" ∧
    _extract_tool_results
        [PyVal.dict [("role", PyVal.str "user")],
         PyVal.dict [("content", PyVal.list
            [PyVal.dict [("toolResult",
               PyVal.dict [("content", PyVal.list [PyVal.dict [("text", PyVal.str "hello")]])])]])]] =
      Except.ok ([PyVal.dict [("content", PyVal.list [PyVal.dict [("text", PyVal.str "hello")]])]],
                 PyVal.none) := by
  refine ⟨?_, rfl, rfl⟩
  intro kvs rest h
  have hstep : extractMsgStep ([], PyVal.none) (PyVal.dict kvs) = Except.ok ([], PyVal.none) := by
    simp only [extractMsgStep, h]
    rfl
  simp only [_extract_tool_results, List.foldlM_cons, hstep]
  rfl

/-- C8 witness: a dict message without a `content` key is skipped by
`_extract_tool_results`. -/
theorem extract_tool_results_robust_witness :
    _extract_tool_results [PyVal.dict [("role", PyVal.str "user")]] = _extract_tool_results [] :=
  (extract_tool_results_robust).1 [("role", PyVal.str "user")] [] rfl

/-- C9 counterexample: with body `{content: "", inputText: "x"}` the
endpoint passes `"x"` to the router although the first non-null alias value
is `""`; and with body `{content: ""}` it answers 400 although the text
input is present (non-null) — selection is by truthiness, not first
non-null. -/
theorem agent_selection_truthiness_ce :
    (process_agent_request orchEcho [("content", PyVal.str ""), ("inputText", PyVal.str "x")]).2 =
      some (PyVal.str "x", PyVal.none, PyVal.none) ∧
    PyVal.str "x" ≠ PyVal.str "" ∧
    (process_agent_request orchEcho [("content", PyVal.str "")]).1.1 = 400 := by
  refine ⟨rfl, ?_, rfl⟩
  intro h
  injection h with h2
  exact absurd h2 (by decide)

/-- C9 amended: the `/agent` endpoint selects the first *truthy* value
among `content|inputText|input|user_input`; when all four are falsy
(absent, null, empty, zero) it returns HTTP 400 with the fixed error
envelope; otherwise it calls the router with the selected text, the body's
`user_id`, and `record_date or current_date`. -/
theorem agent_request_selection (orch : PyVal → PyVal → PyVal → PyVal)
    (body : List (String × PyVal)) :
    ((textAliases.map (bodyGet body)).find? pyTruthy = Option.none →
       process_agent_request orch body = ((400, inputRequiredEnvelope), Option.none)) ∧
    (∀ v, (textAliases.map (bodyGet body)).find? pyTruthy = some v →
       process_agent_request orch body =
         ((200, orch v (bodyGet body "user_id")
             (pyOr (bodyGet body "record_date") (bodyGet body "current_date"))),
          some (v, bodyGet body "user_id",
             pyOr (bodyGet body "record_date") (bodyGet body "current_date")))) := by
  cases h1 : pyTruthy (bodyGet body "content") <;>
  cases h2 : pyTruthy (bodyGet body "inputText") <;>
  cases h3 : pyTruthy (bodyGet body "input") <;>
  cases h4 : pyTruthy (bodyGet body "user_input") <;>
    constructor <;>
      simp [process_agent_request, pyOr, textAliases, List.find?, h1, h2, h3, h4]

/-- C9 witness: a body with only `inputText` set is accepted and the
selected text reaches the router. -/
theorem agent_request_selection_witness :
    (textAliases.map (bodyGet [("inputText", PyVal.str "hi")])).find? pyTruthy =
      some (PyVal.str "hi") ∧
    process_agent_request orchEcho [("inputText", PyVal.str "hi")] =
      ((200, PyVal.str "hi"), some (PyVal.str "hi", PyVal.none, PyVal.none)) :=
  ⟨rfl, (agent_request_selection orchEcho [("inputText", PyVal.str "hi")]).2 (PyVal.str "hi") rfl⟩
